import Mathlib

/-!
Verification of the moltbot RSS watcher and its Meta Graph API client.

The definitions below are a shallow embedding of the TypeScript sources:
  - `src/railway/rss-watcher.ts` (state store, rotation selector, check
    pipeline, scheduler guard),
  - the `meta-instagram` module (page-token resolution, container create,
    container status polling and container publish),
  - the `meta-facebook` module where needed.

JavaScript semantics that the embedding mirrors explicitly:
  - string truthiness: a string is truthy iff it is nonempty;
  - `Array.prototype.sort`, `Array.prototype.toSorted` are stable sorts
    (modelled by insertion sort, which is stable);
  - `Object.fromEntries` / property assignment: the last value for a key
    wins and the first-occurrence order of keys is preserved;
  - `Date.parse` is a host builtin; it is modelled by an explicit
    function argument `dp : String -> Option Int` (`none` means `NaN`),
    and `Date.toISOString` by `iso : Int -> String`;
  - `String.prototype.trim` and `toUpperCase` are re-implemented over
    the character list so that they compute in the kernel.
-/

namespace Moltbot

/-- Whitespace test used by the trim model (the common JS whitespace set). -/
def isJsSpace (c : Char) : Bool := c == ' ' || c == '\t' || c == '\n' || c == '\r'

/-- Model of `String.prototype.trim`. -/
def jsTrim (s : String) : String :=
  ⟨((s.data.dropWhile isJsSpace).reverse.dropWhile isJsSpace).reverse⟩

/-- Model of `String.prototype.toUpperCase` (ASCII, which is all the code compares). -/
def jsToUpper (s : String) : String := ⟨s.data.map Char.toUpper⟩

/-- JS string truthiness: a string is truthy iff nonempty. -/
def jsTruthy (s : String) : Bool := s != ""

/-- JSON value model for parsed API responses and the persisted state document. -/
inductive JsVal where
  | str (s : String)
  | num (n : Int)
  | boolean (b : Bool)
  | null
  | arr (elems : List JsVal)
  | obj (fields : List (String × JsVal))

/-- JS object update: assigning key `k` keeps its position if present, else appends. -/
def jsUpsert {β : Type} (acc : List (String × β)) (k : String) (v : β) : List (String × β) :=
  if acc.any (fun q => q.1 == k) then acc.map (fun q => if q.1 == k then (q.1, v) else q)
  else acc ++ [(k, v)]

/-- Model of `Object.fromEntries` (and of duplicate JSON keys): last value for a
key wins, first-occurrence key order is preserved. -/
def jsFromEntries {β : Type} (l : List (String × β)) : List (String × β) :=
  l.foldl (fun acc p => jsUpsert acc p.1 p.2) []

/-- JS property read on a parsed JSON value: defined only on objects, `undefined`
(`none`) on every other value (arrays have no string-keyed data properties here). -/
def JsVal.getField (j : JsVal) (k : String) : Option JsVal :=
  match j with
  | .obj fs => ((jsFromEntries fs).find? (fun p => p.1 == k)).map (fun p => p.2)
  | _ => none

/-- Model of the shared `toStringValue` helper: trimmed nonempty strings pass
through, finite numbers are stringified, everything else is `null`. -/
def toStringValue (v : Option JsVal) : Option String :=
  match v with
  | some (.str s) => let t := jsTrim s; if t == "" then none else some t
  | some (.num n) => some (toString n)
  | _ => none

/-- Model of the shared `asRecord` helper: objects and arrays pass through
(`typeof value === "object"` and truthy), everything else is `null`. -/
def jsAsRecord (v : JsVal) : Option JsVal :=
  match v with
  | .obj fs => some (.obj fs)
  | .arr xs => some (.arr xs)
  | _ => none

/-- Stable ascending sort by an integer key; models a stable JS
`sort((a, b) => key(a) - key(b))`. -/
def sortAscBy {α : Type} (key : α → Int) (l : List α) : List α :=
  l.insertionSort (fun a b => key a ≤ key b)

/-- Stable descending sort by an integer key; models a stable JS
`sort((a, b) => key(b) - key(a))`. -/
def sortDescBy {α : Type} (key : α → Int) (l : List α) : List α :=
  l.insertionSort (fun a b => key b ≤ key a)

theorem sortAscBy_perm {α : Type} (key : α → Int) (l : List α) :
    (sortAscBy key l).Perm l := List.perm_insertionSort _ l

theorem sortAscBy_sorted {α : Type} (key : α → Int) (l : List α) :
    List.Sorted (fun a b => key a ≤ key b) (sortAscBy key l) := by
  haveI : IsTotal α (fun a b => key a ≤ key b) := ⟨fun a b => Int.le_total (key a) (key b)⟩
  haveI : IsTrans α (fun a b => key a ≤ key b) := ⟨fun _ _ _ h1 h2 => le_trans h1 h2⟩
  exact List.sorted_insertionSort _ l

theorem sortAscBy_head_min {α : Type} (key : α → Int) (l : List α) (x : α) (t : List α)
    (heq : sortAscBy key l = x :: t) (y : α) (hy : y ∈ l) : key x ≤ key y := by
  have hs := sortAscBy_sorted key l
  rw [heq, List.sorted_cons] at hs
  have hp := sortAscBy_perm key l
  rw [heq] at hp
  have hmem : y ∈ x :: t := hp.symm.subset hy
  rw [List.mem_cons] at hmem
  rcases hmem with rfl | h
  · exact le_refl _
  · exact hs.1 y h

theorem sortAscBy_head_mem {α : Type} (key : α → Int) (l : List α) (x : α) (t : List α)
    (heq : sortAscBy key l = x :: t) : x ∈ l := by
  have hp := sortAscBy_perm key l
  rw [heq] at hp
  exact hp.subset (List.mem_cons_self x t)

theorem sortAscBy_eq_nil {α : Type} (key : α → Int) (l : List α)
    (heq : sortAscBy key l = []) : l = [] := by
  have hp := sortAscBy_perm key l
  rw [heq] at hp
  exact hp.symm.eq_nil

/-! ## Data model of the watcher (`rss-watcher.ts`) -/

/-- `MAX_SEEN_IDS` from `rss-watcher.ts`. -/
def MAX_SEEN_IDS : Nat := 500

/-- `THIRTY_DAYS_MS` from `rss-watcher.ts`. -/
def THIRTY_DAYS_MS : Int := 30 * 24 * 60 * 60 * 1000

/-- A parsed feed item (`FeedItem` in `rss-watcher.ts`); fields not read by any
modelled code path (`publishedAt` text, description details) are kept only as
far as they are consumed. -/
structure FeedItem where
  id : String
  title : String
  link : String
  description : Option String := none
  publishedAtMs : Option Int := none
deriving DecidableEq, Repr

/-- The persisted watcher state (`WatcherState` in `rss-watcher.ts`).
`posted_at_by_id` is a JS record modelled as a key/value list. -/
structure WatcherState where
  seenIds : List String
  igFailedIds : Option (List String)
  initialized : Bool
  telegramOffset : Int
  last_rotation_at : Option String := none
  last_posted_id : Option String := none
  posted_at_by_id : Option (List (String × String)) := none
deriving DecidableEq, Repr

/-- The state produced by the `catch` branch of `loadState` (and by `main`
before the first load). -/
def defaultWatcherState : WatcherState :=
  { seenIds := [], igFailedIds := some [], initialized := false, telegramOffset := 0 }

/-- `parseIsoTimestampMs` from `rss-watcher.ts`: `Date.parse` (modelled by `dp`)
guarded to strings; `none` models both `null` and a NaN parse. -/
def parseIsoTimestampMs (dp : String → Option Int) (raw : Option String) : Option Int :=
  match raw with
  | some s => dp s
  | none => none

/-! ## RotationSelector (`selectRotationItem`) -/

inductive RotationReason where
  | never_posted
  | stale_30d
  | least_recent
  | no_candidates
  | no_eligible
deriving DecidableEq, Repr

/-- Result of `selectRotationItem` (the TS result also echoes the `allowRecent`
input on selections; that echo carries no information and is dropped). -/
structure RotationSelection where
  item : Option FeedItem
  reason : RotationReason
deriving DecidableEq, Repr

structure RotationParams where
  items : List FeedItem
  state : WatcherState
  nowMs : Int
  allowRecent : Bool

/-- The `postedAtById` local of `selectRotationItem`: `state.posted_at_by_id ?? {}`. -/
def postedMapOf (st : WatcherState) : List (String × String) :=
  match st.posted_at_by_id with
  | some m => m
  | none => []

/-- Record lookup `postedAtById[item.id]` (JS property read; keys are unique in
any record the program builds, `find?` matches that semantics). -/
def lookupPosted (m : List (String × String)) (k : String) : Option String :=
  ((m.find? (fun p => p.1 == k)).map (fun p => p.2))

/-- JS truthiness of `postedAtById[item.id]`: present and nonempty. -/
def postedTruthy (m : List (String × String)) (k : String) : Bool :=
  match lookupPosted m k with
  | some v => jsTruthy v
  | none => false

/-- The `lastPostedId` local of `selectRotationItem`. -/
def lastPostedIdOf (st : WatcherState) : String :=
  match st.last_posted_id with
  | some s => jsTrim s
  | none => ""

/-- The `candidates` local of `selectRotationItem`. -/
def rotationCandidates (items : List FeedItem) (lastPostedId : String) : List FeedItem :=
  items.filter (fun it => jsTruthy it.link && jsTruthy it.id && it.id != lastPostedId)

/-- The `neverPosted` local of `selectRotationItem`. -/
def rotationNeverPosted (candidates : List FeedItem) (m : List (String × String)) :
    List FeedItem :=
  candidates.filter (fun it => !postedTruthy m it.id)

/-- The `posted` local of `selectRotationItem`: candidates with a parseable
posted timestamp. -/
def rotationPosted (dp : String → Option Int) (candidates : List FeedItem)
    (m : List (String × String)) : List (FeedItem × Int) :=
  candidates.filterMap (fun it =>
    (parseIsoTimestampMs dp (lookupPosted m it.id)).map (fun ms => (it, ms)))

/-- The `stale` local of `selectRotationItem`. -/
def rotationStale (nowMs : Int) (posted : List (FeedItem × Int)) : List (FeedItem × Int) :=
  posted.filter (fun e => decide (nowMs - e.2 ≥ THIRTY_DAYS_MS))

/-- `selectRotationItem` from `rss-watcher.ts`, translated statement by
statement. `dp` models `Date.parse`. -/
def selectRotationItem (dp : String → Option Int) (p : RotationParams) : RotationSelection :=
  let lastPostedId := lastPostedIdOf p.state
  let postedAtById := postedMapOf p.state
  let candidates := rotationCandidates p.items lastPostedId
  if candidates.isEmpty then { item := none, reason := .no_candidates }
  else
    match rotationNeverPosted candidates postedAtById with
    | it :: _ => { item := some it, reason := .never_posted }
    | [] =>
      let posted := rotationPosted dp candidates postedAtById
      let stale := rotationStale p.nowMs posted
      match sortAscBy (fun e => e.2) stale with
      | e :: _ => { item := some e.1, reason := .stale_30d }
      | [] =>
        if p.allowRecent && !posted.isEmpty then
          match sortAscBy (fun e => e.2) posted with
          | e :: _ => { item := some e.1, reason := .least_recent }
          | [] => { item := none, reason := .no_eligible }
        else { item := none, reason := .no_eligible }

/-! ## StateStore (`loadState` / `saveState`) -/

/-- String entries of a JSON array (the `filter((entry): entry is string ...)`
step of `loadState`). -/
def jsonStringEntries (v : Option JsVal) : List String :=
  match v with
  | some (.arr xs) => xs.filterMap (fun x => match x with | .str s => some s | _ => none)
  | _ => []

/-- The `posted_at_by_id` extraction pipeline of `loadState`: per entry the
value is trimmed when it is a string (anything else becomes `""`), entries
with an empty key or value are dropped, entries whose value does not parse are
blanked and then dropped. -/
def loadPostedEntries (dp : String → Option Int) (fs : List (String × JsVal)) :
    List (String × String) :=
  let entries1 : List (String × String) := (jsFromEntries fs).map (fun p =>
    (p.1, match p.2 with | .str s => jsTrim s | _ => ""))
  let entries2 := entries1.filter (fun p => jsTruthy p.1 && jsTruthy p.2)
  let entries3 := entries2.map (fun p => if (dp p.2).isSome then p else (p.1, ""))
  entries3.filter (fun p => jsTruthy p.2)

/-- `loadState` from `rss-watcher.ts`. The input is the outcome of
`readFile` + `JSON.parse`: `.error` covers a missing/unreadable file and
non-JSON bytes, `.ok j` a parsed document. Every exception inside the `try`
lands in the `catch` branch, which returns `defaultWatcherState`; a parsed
non-object document yields field reads of `undefined` and produces the same
record, so the model extracts fields uniformly (reads on `null` throw in JS
and are caught, with the identical result). -/
def loadState (dp : String → Option Int) (doc : Except Unit JsVal) : WatcherState :=
  match doc with
  | .error _ => defaultWatcherState
  | .ok j =>
    let seenIds := jsonStringEntries (j.getField "seenIds")
    let igFailedIds := jsonStringEntries (j.getField "igFailedIds")
    let initialized := match j.getField "initialized" with
      | some (.boolean true) => true
      | _ => false
    let telegramOffset := match j.getField "telegramOffset" with
      | some (.num n) => n
      | _ => 0
    let lastRotationAt : Option String := match j.getField "last_rotation_at" with
      | some (.str s) => if (dp s).isSome then some s else none
      | _ => none
    let lastPostedId : String := match j.getField "last_posted_id" with
      | some (.str s) => jsTrim s
      | _ => ""
    let postedAtById : Option (List (String × String)) :=
      match j.getField "posted_at_by_id" with
      | some (.obj fs) => some (jsFromEntries (loadPostedEntries dp fs))
      | _ => none
    { seenIds := seenIds.take MAX_SEEN_IDS
      igFailedIds := some (igFailedIds.take MAX_SEEN_IDS)
      initialized := initialized
      telegramOffset := telegramOffset
      last_rotation_at := lastRotationAt
      last_posted_id := if jsTruthy lastPostedId then some lastPostedId else none
      posted_at_by_id := match postedAtById with
        | some m => if m.isEmpty then none else some m
        | none => none }

/-- The JSON document written by `saveState` (the `JSON.stringify` argument). -/
structure SavedStateDoc where
  seenIds : List String
  igFailedIds : List String
  initialized : Bool
  telegramOffset : Int
  last_rotation_at : Option String
  last_posted_id : Option String
  posted_at_by_id : Option (List (String × String))
deriving DecidableEq, Repr

/-- The `postedAtByIdEntries` local of `saveState`: trimmed, nonempty,
parseable entries together with their parsed timestamp. -/
def saveStatePostedEntries (dp : String → Option Int) (st : WatcherState) :
    List (String × String × Int) :=
  let raw : List (String × String) := match st.posted_at_by_id with
    | some m => m
    | none => []
  let trimmed : List (String × String) := raw.map (fun p => (jsTrim p.1, jsTrim p.2))
  let kept : List (String × String) := trimmed.filter (fun p => jsTruthy p.1 && jsTruthy p.2)
  kept.filterMap (fun p => (dp p.2).map (fun ms => (p.1, p.2, ms)))

/-- `saveState` from `rss-watcher.ts`: the document written to disk. Note the
conditional spreads: when a normalized optional field is absent the original
state field survives the `{...state}` spread unchanged. -/
def saveState (dp : String → Option Int) (iso : Int → String) (st : WatcherState) :
    SavedStateDoc :=
  let entries := saveStatePostedEntries dp st
  let sortedEntries := sortDescBy (fun e => e.2.2) entries
  let normalizedPosted : Option (List (String × String)) :=
    if entries.isEmpty then none
    else some (jsFromEntries ((sortedEntries.take MAX_SEEN_IDS).map
      (fun e => (e.1, iso e.2.2))))
  let normalizedLastRotationAt : Option String :=
    match st.last_rotation_at with
    | some s => match dp s with
      | some ms => some (iso ms)
      | none => none
    | none => none
  let normalizedLastPostedId : Option String :=
    match st.last_posted_id with
    | some s => let t := jsTrim s; if jsTruthy t then some t else none
    | none => none
  { seenIds := st.seenIds.take MAX_SEEN_IDS
    igFailedIds := (match st.igFailedIds with | some l => l | none => []).take MAX_SEEN_IDS
    initialized := st.initialized
    telegramOffset := st.telegramOffset
    last_rotation_at := match normalizedLastRotationAt with
      | some s => some s
      | none => st.last_rotation_at
    last_posted_id := match normalizedLastPostedId with
      | some s => some s
      | none => st.last_posted_id
    posted_at_by_id := match normalizedPosted with
      | some m => some m
      | none => st.posted_at_by_id }

/-! ## CheckPipeline (`runCheck`) -/

/-- The configuration consumed by one check: the resolved feature toggles and
rotation settings (environment constants of `rss-watcher.ts`). `fbEnabled` and
`igEnabled` are the memoized results of `facebookEnabled()` / `instagramEnabled()`. -/
structure RunCfg where
  rotationEnabled : Bool
  forceRotationPost : Bool
  cooldownHours : Int
  fbEnabled : Bool
  igEnabled : Bool
deriving DecidableEq, Repr

/-- `Array.from(new Set(l))`: first-occurrence deduplication. -/
def dedupFirst (l : List String) : List String :=
  l.foldl (fun acc x => if acc.contains x then acc else acc ++ [x]) []

/-- The `igFailedIds` update performed by `runCheck` when a per-item Instagram
publish reports `ok = false` (prepend, drop other copies, cap at 500). -/
def igFailedUpdate (cur : Option (List String)) (itemId : String) : List String :=
  (itemId :: (match cur with | some l => l | none => []).filter
    (fun e => e != itemId)).take MAX_SEEN_IDS

/-- The conditional `igFailedIds` assignment of `runCheck` around each publish. -/
def igFailedApply (st : WatcherState) (itemId : String) (ok : Bool) : WatcherState :=
  if ok then st else { st with igFailedIds := some (igFailedUpdate st.igFailedIds itemId) }

/-- `recordPostedItem` from `rss-watcher.ts`. -/
def recordPostedItem (st : WatcherState) (itemId postedAtIso : String) : WatcherState :=
  { st with
    last_posted_id := some itemId
    posted_at_by_id := some (jsUpsert
      (match st.posted_at_by_id with | some m => m | none => []) itemId postedAtIso) }

/-- The `forceThisRun` local of `runCheck`. -/
def forceThisRunOf (cfg : RunCfg) (forceRotationConsumed : Bool) : Bool :=
  cfg.forceRotationPost && !forceRotationConsumed

/-- The `cooldownOk` local of `runCheck` (cooldown hours clamped at 0, compared
against the parsed `last_rotation_at`). -/
def rotationCooldownOk (dp : String → Option Int) (cfg : RunCfg) (st : WatcherState)
    (nowMs : Int) : Bool :=
  let cooldownMs : Int := max 0 cfg.cooldownHours * 60 * 60 * 1000
  match parseIsoTimestampMs dp st.last_rotation_at with
  | none => true
  | some lastMs => decide (nowMs - lastMs ≥ cooldownMs)

/-- What one modelled check execution did: the final in-memory state, every
state passed to `saveState` (in order), whether `selectRotationItem` was
called and its result, the ids handed to `postFacebookItem` /
`postInstagramItem`, and the updated `forceRotationConsumed` flag. -/
structure RunCheckResult where
  state : WatcherState
  saved : List WatcherState
  selectorCalled : Bool
  selection : Option RotationSelection
  fbCalls : List String
  igCalls : List String
  forceRotationConsumed : Bool
deriving Repr

/-- The no-new-items branch of `runCheck` (rotation). `igOk` is the `ok` flag
returned by `postInstagramItem` for an item (the network environment). -/
def runCheckRotation (dp : String → Option Int) (cfg : RunCfg) (forceConsumed : Bool)
    (st : WatcherState) (items : List FeedItem) (nowMs : Int) (nowIso : String)
    (igOk : FeedItem → Bool) : RunCheckResult :=
  let forceThisRun := forceThisRunOf cfg forceConsumed
  let rotationAllowed := forceThisRun || (cfg.rotationEnabled && rotationCooldownOk dp cfg st nowMs)
  if !rotationAllowed then
    { state := st, saved := [], selectorCalled := false, selection := none,
      fbCalls := [], igCalls := [], forceRotationConsumed := forceConsumed }
  else if !cfg.fbEnabled && !cfg.igEnabled then
    { state := st, saved := [], selectorCalled := false, selection := none,
      fbCalls := [], igCalls := [], forceRotationConsumed := forceConsumed }
  else
    let forceConsumed1 := forceConsumed || forceThisRun
    let selection := selectRotationItem dp
      { items := items, state := st, nowMs := nowMs, allowRecent := forceThisRun }
    match selection.item with
    | none =>
      { state := st, saved := [], selectorCalled := true, selection := some selection,
        fbCalls := [], igCalls := [], forceRotationConsumed := forceConsumed1 }
    | some it =>
      let st1 := igFailedApply st it.id (igOk it)
      let st2 := recordPostedItem st1 it.id nowIso
      let st3 := { st2 with last_rotation_at := some nowIso }
      { state := st3, saved := [st3], selectorCalled := true, selection := some selection,
        fbCalls := [it.id], igCalls := [it.id], forceRotationConsumed := forceConsumed1 }

/-- The new-items branch of `runCheck`: publish each new item in ascending
publish-time order, record failures and posted timestamps, then merge ids into
`seenIds` with first-occurrence dedup and the 500 cap. -/
def runCheckNewItems (cfg : RunCfg) (forceConsumed : Bool) (st : WatcherState)
    (newItems : List FeedItem) (nowIso : String) (igOk : FeedItem → Bool) : RunCheckResult :=
  let _ := cfg
  let sortedNew := sortAscBy (fun it => match it.publishedAtMs with
    | some ms => ms
    | none => 0) newItems
  let stAfter := sortedNew.foldl (fun acc it =>
    recordPostedItem (igFailedApply acc it.id (igOk it)) it.id nowIso) st
  let merged := sortedNew.map (fun it => it.id) ++ stAfter.seenIds
  let stFinal := { stAfter with seenIds := (dedupFirst merged).take MAX_SEEN_IDS }
  { state := stFinal, saved := [stFinal], selectorCalled := false, selection := none,
    fbCalls := sortedNew.map (fun it => it.id), igCalls := sortedNew.map (fun it => it.id),
    forceRotationConsumed := forceConsumed }

/-- `runCheck` from `rss-watcher.ts`, modelled from the point where the feed
has been fetched and parsed (`items`); a fetch failure is caught at the top of
`runCheck` and touches nothing, so it corresponds to the empty result.
Alert/Telegram sends and log lines are elided: they do not change state. -/
def runCheck (dp : String → Option Int) (cfg : RunCfg) (forceConsumed : Bool)
    (st : WatcherState) (items : List FeedItem) (nowMs : Int) (nowIso : String)
    (igOk : FeedItem → Bool) : RunCheckResult :=
  if items.isEmpty then
    { state := st, saved := [], selectorCalled := false, selection := none,
      fbCalls := [], igCalls := [], forceRotationConsumed := forceConsumed }
  else
    let newItems := items.filter (fun it => !st.seenIds.contains it.id)
    if !st.initialized then
      let st1 := { st with
        initialized := true
        seenIds := (items.map (fun it => it.id)).take MAX_SEEN_IDS }
      { state := st1, saved := [st1], selectorCalled := false, selection := none,
        fbCalls := [], igCalls := [], forceRotationConsumed := forceConsumed }
    else if newItems.isEmpty then
      runCheckRotation dp cfg forceConsumed st items nowMs nowIso igOk
    else
      runCheckNewItems cfg forceConsumed st newItems nowIso igOk

/-! ## ConcurrencyGuard / Scheduler (`scheduleCheck`) -/

inductive Trigger where
  | startup
  | scheduled
  | manual
deriving DecidableEq, Repr

/-- The scheduler state: `checkInFlight != null`, the `queuedManualRun` flag,
and a counter of `runCheck` executions started. -/
structure SchedulerState where
  inFlight : Bool
  queued : Bool
  started : Nat
deriving DecidableEq, Repr

/-- One call of `scheduleCheck(trigger)`: while a check is in flight a manual
request only sets the pending flag (other triggers are dropped); otherwise a
new `runCheck` execution starts. -/
def scheduleCheckStep (trigger : Trigger) (s : SchedulerState) : SchedulerState :=
  if s.inFlight then
    if trigger = .manual then { s with queued := true } else s
  else { s with inFlight := true, started := s.started + 1 }

/-- The `finally` continuation of `scheduleCheck`: clear the in-flight guard,
then re-enter `scheduleCheck("manual")` exactly once if a manual run is
pending. -/
def completeCheck (s : SchedulerState) : SchedulerState :=
  let s1 := { s with inFlight := false }
  if s1.queued then scheduleCheckStep .manual { s1 with queued := false } else s1

/-! ## PublishOrchestrator per-item Instagram flow (`postInstagramItem`) -/

/-- `InstagramBusinessAccount` from the `meta-instagram` module. -/
structure InstagramBusinessAccount where
  id : String
  username : Option String
deriving DecidableEq, Repr

/-- The external outcomes that steer `postInstagramItem`: whether page-token
resolution succeeds, the business-account resolution outcome (`.error` models
a thrown `MetaGraphRequestError`), whether an image URL could be resolved and
whether `publishInstagramPhoto` succeeds. -/
structure InstagramItemEnv where
  tokenOk : Bool
  business : Except Unit (Option InstagramBusinessAccount)
  imageOk : Bool
  publishOk : Bool
deriving Repr

/-- The observable outcome of `postInstagramItem`: the returned `ok` flag and
whether a publish request (`publishInstagramPhoto`) was issued at all. -/
structure InstagramItemOutcome where
  ok : Bool
  publishAttempted : Bool
deriving DecidableEq, Repr

/-- `postInstagramItem` from `rss-watcher.ts`. Caption assembly, language
detection and translation are pure, exception-free computations that do not
affect the returned flag and are elided; every `throw` inside the `try` lands
in the `catch` branch, which returns `ok = false`. -/
def postInstagramItem (igEnabled : Bool) (env : InstagramItemEnv) (item : FeedItem) :
    InstagramItemOutcome :=
  if !igEnabled then { ok := true, publishAttempted := false }
  else if !jsTruthy item.link then { ok := false, publishAttempted := false }
  else if !env.tokenOk then { ok := false, publishAttempted := false }
  else
    match env.business with
    | .error _ => { ok := false, publishAttempted := false }
    | .ok none => { ok := false, publishAttempted := false }
    | .ok (some _) =>
      if !env.imageOk then { ok := false, publishAttempted := false }
      else if env.publishOk then { ok := true, publishAttempted := true }
      else { ok := false, publishAttempted := true }

/-! ## GraphClient (the `meta-instagram` module) -/

/-- `MetaGraphErrorSummary` from the `meta-instagram` module. -/
structure MetaGraphErrorSummary where
  message : Option String
  type : Option String
  code : Option String
  subcode : Option String
  fbtraceId : Option String
  userTitle : Option String
  userMessage : Option String
  isTransient : Option Bool
deriving DecidableEq, Repr

/-- The processed HTTP response produced by `fetchGraph`: `ok`, `status`, and
the parsed JSON body (`none` for an empty or unparseable response text). The
raw text is only interpolated into log strings and is dropped. -/
structure MetaGraphResponse where
  ok : Bool
  status : Int
  body : Option JsVal

/-- JS optional-chaining property read `v?.k`. -/
def optField (v : Option JsVal) (k : String) : Option JsVal :=
  match v with
  | some e => e.getField k
  | none => none

/-- `response.body?.k`. -/
def graphBodyField (resp : MetaGraphResponse) (k : String) : Option JsVal :=
  optField resp.body k

/-- `extractGraphError`: `asRecord(body?.error)`. -/
def extractGraphError (body : Option JsVal) : Option JsVal :=
  match optField body "error" with
  | some e => jsAsRecord e
  | none => none

/-- `summarizeGraphError` from the `meta-instagram` module. -/
def summarizeGraphError (body : Option JsVal) : Option MetaGraphErrorSummary :=
  match extractGraphError body with
  | none => none
  | some err =>
    some
      { message := toStringValue (err.getField "message")
        type := toStringValue (err.getField "type")
        code := toStringValue (err.getField "code")
        subcode := toStringValue (err.getField "error_subcode")
        fbtraceId := toStringValue (err.getField "fbtrace_id")
        userTitle := toStringValue (err.getField "error_user_title")
        userMessage := toStringValue (err.getField "error_user_msg")
        isTransient := match err.getField "is_transient" with
          | some (.boolean b) => some b
          | _ => none }

/-- The data carried by a thrown `MetaGraphRequestError` that the claims refer
to: HTTP status and the structured error summary (method, url and response
text are log/debug payload). -/
structure MetaGraphRequestError where
  status : Int
  error : Option MetaGraphErrorSummary
deriving DecidableEq, Repr

/-- `createInstagramContainer` applied to the response of its single `POST
/{igUserId}/media` request: the creation id, or a thrown
`MetaGraphRequestError`. There is no retry around this request. -/
def createInstagramContainer (resp : MetaGraphResponse) : Except MetaGraphRequestError String :=
  if !resp.ok then .error { status := resp.status, error := summarizeGraphError resp.body }
  else
    match toStringValue (graphBodyField resp "id") with
    | some creationId => .ok creationId
    | none => .error { status := resp.status, error := summarizeGraphError resp.body }

inductive InstagramContainerStatusCode where
  | EXPIRED
  | ERROR
  | FINISHED
  | IN_PROGRESS
  | PUBLISHED
  | UNKNOWN
deriving DecidableEq, Repr

/-- `fetchContainerStatus` applied to the response of its `GET
/{creationId}?fields=status_code` request; any failure or unrecognized
status normalizes to `UNKNOWN`. -/
def fetchContainerStatus (resp : MetaGraphResponse) : InstagramContainerStatusCode :=
  if !resp.ok then .UNKNOWN
  else
    match toStringValue (graphBodyField resp "status_code") with
    | none => .UNKNOWN
    | some raw =>
      let normalized := jsToUpper (jsTrim raw)
      if normalized == "IN_PROGRESS" then .IN_PROGRESS
      else if normalized == "FINISHED" then .FINISHED
      else if normalized == "ERROR" then .ERROR
      else if normalized == "EXPIRED" then .EXPIRED
      else if normalized == "PUBLISHED" then .PUBLISHED
      else .UNKNOWN

/-- `publishInstagramContainer` applied to the response of its single `POST
/{igUserId}/media_publish` request. There is no retry around this request. -/
def publishInstagramContainer (resp : MetaGraphResponse) : Except MetaGraphRequestError String :=
  if !resp.ok then .error { status := resp.status, error := summarizeGraphError resp.body }
  else
    match toStringValue (graphBodyField resp "id") with
    | some mediaId => .ok mediaId
    | none => .error { status := resp.status, error := summarizeGraphError resp.body }

inductive PollOutcome where
  | finished
  | failed (s : InstagramContainerStatusCode)
  | timedOut
deriving DecidableEq, Repr

/-- The polling `while` loop of `publishInstagramPhoto`. `fetchAt k` is the
response to the `k`-th HTTP request of the whole publish flow; `i` is the next
request index and `elapsed` the accumulated time. Discrete time model: each
status fetch is instantaneous and each sleep advances time by exactly
`intervalMs` (the loop re-reads `Date.now()` after each sleep). The result
pairs the loop outcome with the next request index. -/
def pollContainerLoop (fetchAt : Nat → MetaGraphResponse) (intervalMs timeoutMs : Nat)
    (hpos : 0 < intervalMs) (i elapsed : Nat) : PollOutcome × Nat :=
  if elapsed < timeoutMs then
    match fetchContainerStatus (fetchAt i) with
    | .FINISHED => (.finished, i + 1)
    | .ERROR => (.failed .ERROR, i + 1)
    | .EXPIRED => (.failed .EXPIRED, i + 1)
    | _ => pollContainerLoop fetchAt intervalMs timeoutMs hpos (i + 1) (elapsed + intervalMs)
  else (.timedOut, i)
termination_by timeoutMs - elapsed
decreasing_by omega

structure InstagramPublishResult where
  igUserId : String
  creationId : String
  mediaId : String
deriving DecidableEq, Repr

/-- The failure modes of `publishInstagramPhoto`: a thrown
`MetaGraphRequestError`, the `META_IG_CONTAINER_FAILED` error, or one of the
`*_CONFIG_INVALID` input-validation errors. -/
inductive IgPublishErr where
  | graph (e : MetaGraphRequestError)
  | containerFailed (s : InstagramContainerStatusCode)
  | configInvalid (which : String)
deriving DecidableEq, Repr

/-- The tail of `publishInstagramPhoto` after the poll loop: the
`media_publish` request at index `j`. -/
def publishStep (fetchAt : Nat → MetaGraphResponse) (j : Nat) (igUserId creationId : String) :
    Except IgPublishErr InstagramPublishResult × Nat :=
  match publishInstagramContainer (fetchAt j) with
  | .error e => (.error (.graph e), j + 1)
  | .ok mediaId => (.ok { igUserId := igUserId, creationId := creationId, mediaId := mediaId },
      j + 1)

/-- `publishInstagramPhoto` from the `meta-instagram` module over the response
sequence `fetchAt` (request 0 = container creation, then one request per status
poll, then the container publish). Note the control flow after the poll loop:
both a `FINISHED` poll outcome and an elapsed timeout fall through to the
publish request; only `ERROR`/`EXPIRED` abort. The result pairs the outcome
with the number of HTTP requests issued. -/
def publishInstagramPhoto (fetchAt : Nat → MetaGraphResponse)
    (igUserId accessToken imageUrl : String) (pollUntilFinished : Bool)
    (intervalMs timeoutMs : Nat) (hpos : 0 < intervalMs) :
    Except IgPublishErr InstagramPublishResult × Nat :=
  let igU := jsTrim igUserId
  if !jsTruthy igU then (.error (.configInvalid "igUserId"), 0)
  else
    let tok := jsTrim accessToken
    if !jsTruthy tok then (.error (.configInvalid "accessToken"), 0)
    else
      let img := jsTrim imageUrl
      if !jsTruthy img then (.error (.configInvalid "imageUrl"), 0)
      else
        match createInstagramContainer (fetchAt 0) with
        | .error e => (.error (.graph e), 1)
        | .ok creationId =>
          let poll : PollOutcome × Nat :=
            if pollUntilFinished then pollContainerLoop fetchAt intervalMs timeoutMs hpos 1 0
            else (.finished, 1)
          match poll.1 with
          | .failed s => (.error (.containerFailed s), poll.2)
          | _ => publishStep fetchAt poll.2 igU creationId

/-! ## GraphClient page-token resolution (`resolveFacebookPageAccessToken`) -/

inductive PageTokenSource where
  | provided
  | me_accounts
deriving DecidableEq, Repr

structure MeAccountsStatus where
  attempted : Bool
  ok : Bool
  status : Option Int
  error : Option MetaGraphErrorSummary
  matchedPage : Bool
deriving DecidableEq, Repr

structure MetaPageAccessTokenResolution where
  token : String
  source : PageTokenSource
  pageName : Option String
  meAccountsStatus : MeAccountsStatus
deriving DecidableEq, Repr

/-- The `/me/accounts` entry matched against the target page id:
`data.map(asRecord).find(entry => toStringValue(entry?.id) === pageId)`. -/
def meAccountsMatch (data : List JsVal) (pageId : String) : Option (Option JsVal) :=
  (data.map jsAsRecord).find? (fun r => toStringValue (optField r "id") == some pageId)

/-- `resolveFacebookPageAccessToken` from the `meta-instagram` module, applied
to the response of its single `GET /me/accounts` request. `.error` models the
two thrown `META_GRAPH_CONFIG_INVALID` input-validation errors; every response
shape is handled without throwing. -/
def resolveFacebookPageAccessToken (pageId accessToken : String) (resp : MetaGraphResponse) :
    Except String MetaPageAccessTokenResolution :=
  let pid := jsTrim pageId
  if !jsTruthy pid then .error "META_GRAPH_CONFIG_INVALID: pageId is missing."
  else
    let tok := jsTrim accessToken
    if !jsTruthy tok then .error "META_GRAPH_CONFIG_INVALID: accessToken is missing."
    else
      if !resp.ok then
        .ok { token := tok
              source := .provided
              pageName := none
              meAccountsStatus :=
                { attempted := true
                  ok := false
                  status := some resp.status
                  error := summarizeGraphError resp.body
                  matchedPage := false } }
      else
        match graphBodyField resp "data" with
        | some (.arr data) =>
          match meAccountsMatch data pid with
          | some entry =>
            let pageToken := toStringValue (optField entry "access_token")
            let pageName := toStringValue (optField entry "name")
            match pageToken with
            | some pt =>
              .ok { token := pt
                    source := .me_accounts
                    pageName := pageName
                    meAccountsStatus :=
                      { attempted := true
                        ok := true
                        status := some resp.status
                        error := none
                        matchedPage := true } }
            | none =>
              .ok { token := tok
                    source := .provided
                    pageName := pageName
                    meAccountsStatus :=
                      { attempted := true
                        ok := true
                        status := some resp.status
                        error := none
                        matchedPage := true } }
          | none =>
            .ok { token := tok
                  source := .provided
                  pageName := none
                  meAccountsStatus :=
                    { attempted := true
                      ok := true
                      status := some resp.status
                      error := none
                      matchedPage := false } }
        | _ =>
          .ok { token := tok
                source := .provided
                pageName := none
                meAccountsStatus :=
                  { attempted := true
                    ok := true
                    status := some resp.status
                    error := none
                    matchedPage := false } }

/-! ## Claim C6: concurrency coalescing of manual runs -/

/-- Claim C6: at most one check execution is in flight at a time (the guard
state machine starts a run only when `inFlight` is false); any number `n` of
manual requests arriving while a check is in flight leave exactly one
execution started and merely set the single pending flag, and completion of
the in-flight check starts exactly one additional execution when `n ≥ 1` and
none when `n = 0`. -/
theorem scheduleCheck_coalesces_manual_runs (n : Nat) :
    Nat.iterate (scheduleCheckStep .manual) n
        (scheduleCheckStep .startup { inFlight := false, queued := false, started := 0 }) =
      { inFlight := true, queued := n != 0, started := 1 } ∧
    completeCheck (Nat.iterate (scheduleCheckStep .manual) n
        (scheduleCheckStep .startup { inFlight := false, queued := false, started := 0 })) =
      (if n = 0 then { inFlight := false, queued := false, started := 1 }
       else { inFlight := true, queued := false, started := 2 }) := by
  have hfix : ∀ m : Nat, Nat.iterate (scheduleCheckStep .manual) m
      { inFlight := true, queued := true, started := 1 } =
      { inFlight := true, queued := true, started := 1 } :=
    fun m => Function.iterate_fixed rfl m
  have hone : Nat.iterate (scheduleCheckStep .manual) n
      (scheduleCheckStep .startup { inFlight := false, queued := false, started := 0 }) =
      { inFlight := true, queued := n != 0, started := 1 } := by
    cases n with
    | zero => rfl
    | succ m =>
      rw [Function.iterate_succ_apply]
      have h1 : scheduleCheckStep .manual
          (scheduleCheckStep .startup { inFlight := false, queued := false, started := 0 }) =
          { inFlight := true, queued := true, started := 1 } := rfl
      rw [h1, hfix m]
      rfl
  refine ⟨hone, ?_⟩
  rw [hone]
  cases n with
  | zero => rfl
  | succ m => rfl

/-! ## Claim C10: per-item Instagram publish gating and `igFailedIds` recording -/

/-- Claim C10: with the Instagram channel disabled, `postInstagramItem` returns
`ok = true` without issuing any publish request, so `runCheck` leaves
`igFailedIds` untouched for that item; with the channel enabled, an item with
an empty link, and likewise an item when no business account is linked, yields
`ok = false` without issuing any publish request, and `runCheck` then records
the item id in `igFailedIds`. -/
theorem postInstagramItem_gating (env : InstagramItemEnv) (item : FeedItem)
    (st : WatcherState) (itemId : String) :
    postInstagramItem false env item = { ok := true, publishAttempted := false } ∧
    (item.link = "" →
      postInstagramItem true env item = { ok := false, publishAttempted := false }) ∧
    (env.tokenOk = true → env.business = .ok none →
      postInstagramItem true env item = { ok := false, publishAttempted := false }) ∧
    igFailedApply st itemId true = st ∧
    (igFailedApply st itemId false).igFailedIds = some (igFailedUpdate st.igFailedIds itemId) ∧
    itemId ∈ igFailedUpdate st.igFailedIds itemId := by
  refine ⟨rfl, ?_, ?_, rfl, rfl, ?_⟩
  · intro hlink
    simp [postInstagramItem, jsTruthy, hlink]
  · intro htok hbiz
    by_cases hlink : jsTruthy item.link
    · simp [postInstagramItem, hlink, htok, hbiz]
    · simp [postInstagramItem, hlink]
  · show itemId ∈ (itemId :: _).take MAX_SEEN_IDS
    rw [show MAX_SEEN_IDS = 499 + 1 from rfl, List.take_succ_cons]
    exact List.mem_cons_self _ _

/-- Witness for claim C10 at a concrete input. -/
theorem postInstagramItem_gating_witness :
    postInstagramItem true
        { tokenOk := true, business := .ok none, imageOk := true, publishOk := true }
        { id := "a", title := "t", link := "https://x/1" } =
      { ok := false, publishAttempted := false } :=
  (postInstagramItem_gating
    { tokenOk := true, business := .ok none, imageOk := true, publishOk := true }
    { id := "a", title := "t", link := "https://x/1" }
    defaultWatcherState "a").2.2.1 rfl rfl

/-! ## Claim C9: page-token resolution never raises on a bad response -/

/-- Claim C9: given well-formed configuration inputs, page-token resolution
handles every `/me/accounts` response without raising: a failed response, a
response whose `data` is not an array, a response with no entry matching the
page id, and a matching entry that carries no `access_token`, all fall back to
the provided broader token with `source = provided` and a diagnostic
`meAccountsStatus` record. -/
theorem resolveFacebookPageAccessToken_fallbacks (pageId accessToken : String)
    (resp : MetaGraphResponse) (hp : jsTruthy (jsTrim pageId) = true)
    (ht : jsTruthy (jsTrim accessToken) = true) :
    (∃ res, resolveFacebookPageAccessToken pageId accessToken resp = .ok res ∧
      res.meAccountsStatus.attempted = true) ∧
    (resp.ok = false →
      resolveFacebookPageAccessToken pageId accessToken resp =
        .ok { token := jsTrim accessToken
              source := .provided
              pageName := none
              meAccountsStatus :=
                { attempted := true
                  ok := false
                  status := some resp.status
                  error := summarizeGraphError resp.body
                  matchedPage := false } }) ∧
    (resp.ok = true →
      (∀ data, graphBodyField resp "data" ≠ some (.arr data)) →
      resolveFacebookPageAccessToken pageId accessToken resp =
        .ok { token := jsTrim accessToken
              source := .provided
              pageName := none
              meAccountsStatus :=
                { attempted := true
                  ok := true
                  status := some resp.status
                  error := none
                  matchedPage := false } }) ∧
    (∀ data, resp.ok = true →
      graphBodyField resp "data" = some (.arr data) →
      meAccountsMatch data (jsTrim pageId) = none →
      resolveFacebookPageAccessToken pageId accessToken resp =
        .ok { token := jsTrim accessToken
              source := .provided
              pageName := none
              meAccountsStatus :=
                { attempted := true
                  ok := true
                  status := some resp.status
                  error := none
                  matchedPage := false } }) ∧
    (∀ data entry, resp.ok = true →
      graphBodyField resp "data" = some (.arr data) →
      meAccountsMatch data (jsTrim pageId) = some entry →
      toStringValue (optField entry "access_token") = none →
      resolveFacebookPageAccessToken pageId accessToken resp =
        .ok { token := jsTrim accessToken
              source := .provided
              pageName := toStringValue (optField entry "name")
              meAccountsStatus :=
                { attempted := true
                  ok := true
                  status := some resp.status
                  error := none
                  matchedPage := true } }) := by
  constructor
  · simp only [resolveFacebookPageAccessToken, hp, ht, Bool.not_true, Bool.false_eq_true,
      if_false]
    repeat' split
    all_goals exact ⟨_, rfl, rfl⟩
  refine ⟨?_, ?_, ?_, ?_⟩
  · intro hok
    simp only [resolveFacebookPageAccessToken, hp, ht, hok, Bool.not_true, Bool.not_false,
      Bool.false_eq_true, if_false, if_true]
  · intro hok hdata
    simp only [resolveFacebookPageAccessToken, hp, ht, hok, Bool.not_true, Bool.false_eq_true,
      if_false]
  · intro data hok hdata hmatch
    simp only [resolveFacebookPageAccessToken, hp, ht, hok, hdata, hmatch, Bool.not_true,
      Bool.false_eq_true, if_false]
  · intro data entry hok hdata hmatch htok2
    simp only [resolveFacebookPageAccessToken, hp, ht, hok, hdata, hmatch, htok2, Bool.not_true,
      Bool.false_eq_true, if_false]

/-- Witness for claim C9 at a concrete input: a 500 `/me/accounts` response
falls back to the provided token. -/
theorem resolveFacebookPageAccessToken_fallbacks_witness :
    resolveFacebookPageAccessToken "123" "user-token"
        { ok := false, status := 500, body := none } =
      .ok { token := "user-token"
            source := .provided
            pageName := none
            meAccountsStatus :=
              { attempted := true
                ok := false
                status := some 500
                error := none
                matchedPage := false } } := by
  have h := (resolveFacebookPageAccessToken_fallbacks "123" "user-token"
    { ok := false, status := 500, body := none } (by decide) (by decide)).2.1 rfl
  simpa using h

/-! ## Claim C7: state load tolerance -/

theorem jsUpsert_pred {β : Type} (P : String → Prop) (Q : β → Prop)
    (acc : List (String × β)) (k : String) (v : β)
    (hacc : ∀ p ∈ acc, P p.1 ∧ Q p.2) (hk : P k) (hv : Q v) :
    ∀ p ∈ jsUpsert acc k v, P p.1 ∧ Q p.2 := by
  intro p hp
  unfold jsUpsert at hp
  split at hp
  · rw [List.mem_map] at hp
    obtain ⟨q, hq, rfl⟩ := hp
    by_cases hqk : (q.1 == k) = true
    · simp only [hqk, if_true]
      exact ⟨(hacc q hq).1, hv⟩
    · simp only [hqk, if_false]
      exact hacc q hq
  · rw [List.mem_append] at hp
    rcases hp with hp | hp
    · exact hacc p hp
    · rw [List.mem_singleton] at hp
      subst hp
      exact ⟨hk, hv⟩

theorem jsFromEntries_pred {β : Type} (P : String → Prop) (Q : β → Prop)
    (l : List (String × β)) (hl : ∀ p ∈ l, P p.1 ∧ Q p.2) :
    ∀ p ∈ jsFromEntries l, P p.1 ∧ Q p.2 := by
  have main : ∀ l2 acc : List (String × β), (∀ p ∈ l2, P p.1 ∧ Q p.2) →
      (∀ p ∈ acc, P p.1 ∧ Q p.2) →
      ∀ p ∈ l2.foldl (fun acc p => jsUpsert acc p.1 p.2) acc, P p.1 ∧ Q p.2 := by
    intro l2
    induction l2 with
    | nil =>
      intro acc _ hacc p hp
      exact hacc p hp
    | cons x xs ih =>
      intro acc hl2 hacc p hp
      rw [List.foldl_cons] at hp
      exact ih (jsUpsert acc x.1 x.2)
        (fun q hq => hl2 q (List.mem_cons_of_mem x hq))
        (jsUpsert_pred P Q acc x.1 x.2 hacc (hl2 x (List.mem_cons_self x xs)).1
          (hl2 x (List.mem_cons_self x xs)).2) p hp
  exact main l [] hl (by intro p hp; cases hp)

theorem jsUpsert_length_le {β : Type} (acc : List (String × β)) (k : String) (v : β) :
    (jsUpsert acc k v).length ≤ acc.length + 1 := by
  unfold jsUpsert
  split
  · rw [List.length_map]
    omega
  · rw [List.length_append]
    simp

theorem jsFromEntries_length_le {β : Type} (l : List (String × β)) :
    (jsFromEntries l).length ≤ l.length := by
  suffices h : ∀ acc : List (String × β),
      (l.foldl (fun acc p => jsUpsert acc p.1 p.2) acc).length ≤ acc.length + l.length by
    simpa using h []
  induction l with
  | nil => intro acc; simp
  | cons x xs ih =>
    intro acc
    rw [List.foldl_cons]
    have h1 := ih (jsUpsert acc x.1 x.2)
    have h2 := jsUpsert_length_le acc x.1 x.2
    simp only [List.length_cons]
    omega

/-- Claim C7: the state load never raises. A read or parse failure yields the
default empty state (empty id lists, `initialized = false`, cursor 0), and any
parsed document yields a state whose fields are filtered to well-typed values:
the id lists are string lists capped at 500 entries, a kept
`last_rotation_at` parses, a kept `last_posted_id` is a nonempty trimmed
string, and every kept `posted_at_by_id` entry has a nonempty key and a
nonempty value with a parseable timestamp. -/
theorem loadState_tolerant (dp : String → Option Int) :
    loadState dp (.error ()) =
      { seenIds := [], igFailedIds := some [], initialized := false, telegramOffset := 0 } ∧
    ∀ j : JsVal,
      (loadState dp (.ok j)).seenIds.length ≤ 500 ∧
      (∀ l, (loadState dp (.ok j)).igFailedIds = some l → l.length ≤ 500) ∧
      (∀ s, (loadState dp (.ok j)).last_rotation_at = some s → (dp s).isSome = true) ∧
      (∀ s, (loadState dp (.ok j)).last_posted_id = some s → s ≠ "") ∧
      (∀ m, (loadState dp (.ok j)).posted_at_by_id = some m →
        ∀ p ∈ m, p.1 ≠ "" ∧ (p.2 ≠ "" ∧ (dp p.2).isSome = true)) := by
  refine ⟨rfl, fun j => ⟨?_, ?_, ?_, ?_, ?_⟩⟩
  · have hs : (loadState dp (.ok j)).seenIds =
        (jsonStringEntries (j.getField "seenIds")).take MAX_SEEN_IDS := rfl
    rw [hs, List.length_take]
    simp [MAX_SEEN_IDS]
  · intro l hl
    have hs : (loadState dp (.ok j)).igFailedIds =
        some ((jsonStringEntries (j.getField "igFailedIds")).take MAX_SEEN_IDS) := rfl
    rw [hs] at hl
    obtain rfl : (jsonStringEntries (j.getField "igFailedIds")).take MAX_SEEN_IDS = l :=
      Option.some.inj hl
    rw [List.length_take]
    simp [MAX_SEEN_IDS]
  · intro s hs
    have hproj : (loadState dp (.ok j)).last_rotation_at =
        (match j.getField "last_rotation_at" with
          | some (.str s) => if (dp s).isSome then some s else none
          | _ => none) := rfl
    rw [hproj] at hs
    rcases hfield : j.getField "last_rotation_at" with _ | v
    · rw [hfield] at hs
      cases hs
    · rw [hfield] at hs
      cases v with
      | str s2 =>
        by_cases hdp : (dp s2).isSome
        · simp only [hdp, if_true] at hs
          obtain rfl := Option.some.inj hs
          exact hdp
        · simp only [hdp, if_false] at hs
          cases hs
      | num n => cases hs
      | boolean b => cases hs
      | null => cases hs
      | arr xs => cases hs
      | obj fs => cases hs
  · intro s hs
    have hproj : (loadState dp (.ok j)).last_posted_id =
        (if jsTruthy (match j.getField "last_posted_id" with
            | some (.str s) => jsTrim s
            | _ => "") = true
          then some (match j.getField "last_posted_id" with
            | some (.str s) => jsTrim s
            | _ => "")
          else none) := rfl
    rw [hproj] at hs
    split at hs
    · next htruthy =>
      obtain rfl := Option.some.inj hs
      simpa [jsTruthy] using htruthy
    · cases hs
  · intro m hm
    have hpe : ∀ p ∈ loadPostedEntries dp
        (match j.getField "posted_at_by_id" with
          | some (.obj fs) => fs
          | _ => []),
        p.1 ≠ "" ∧ (p.2 ≠ "" ∧ (dp p.2).isSome = true) := by
      intro p hp
      unfold loadPostedEntries at hp
      rw [List.mem_filter] at hp
      obtain ⟨hp3, htr⟩ := hp
      rw [List.mem_map] at hp3
      obtain ⟨q, hq2, hpq⟩ := hp3
      rw [List.mem_filter] at hq2
      obtain ⟨hq1, hqtr⟩ := hq2
      have hkey : jsTruthy q.1 = true := by
        rw [Bool.and_eq_true] at hqtr
        exact hqtr.1
      by_cases hdp : (dp q.2).isSome
      · rw [if_pos hdp] at hpq
        subst hpq
        refine ⟨?_, ?_, hdp⟩
        · simpa [jsTruthy] using hkey
        · simpa [jsTruthy] using htr
      · rw [if_neg hdp] at hpq
        subst hpq
        simp [jsTruthy] at htr
    have hproj : (loadState dp (.ok j)).posted_at_by_id =
        (match (match j.getField "posted_at_by_id" with
          | some (.obj fs) => some (jsFromEntries (loadPostedEntries dp fs))
          | _ => none) with
        | some m2 => if m2.isEmpty then none else some m2
        | none => none) := rfl
    rw [hproj] at hm
    rcases hfield : j.getField "posted_at_by_id" with _ | v
    · rw [hfield] at hm
      cases hm
    · rw [hfield] at hm
      cases v with
      | obj fs =>
        rw [hfield] at hpe
        have hpe2 : ∀ p ∈ loadPostedEntries dp fs,
            (fun k => k ≠ "") p.1 ∧ (fun v => v ≠ "" ∧ (dp v).isSome = true) p.2 := by
          intro p hp
          exact hpe p hp
        simp only [] at hm
        split at hm
        · cases hm
        · obtain rfl := Option.some.inj hm
          exact jsFromEntries_pred (fun k => k ≠ "")
            (fun v => v ≠ "" ∧ (dp v).isSome = true) (loadPostedEntries dp fs) hpe2
      | str s2 => cases hm
      | num n => cases hm
      | boolean b => cases hm
      | null => cases hm
      | arr xs => cases hm

/-- A concrete `Date.parse` model that accepts everything (for witnesses). -/
def dpAll : String → Option Int := fun _ => some 0

/-- A concrete `Date.parse` model that rejects everything (for witnesses and
counterexamples). -/
def dpNone : String → Option Int := fun _ => none

/-- A concrete state document used to witness claim C7. -/
def loadDocW : JsVal :=
  .obj [("seenIds", .arr [.str "a", .num 1, .str "b"]),
        ("initialized", .boolean true),
        ("telegramOffset", .num 7),
        ("last_rotation_at", .str "2024-01-01"),
        ("posted_at_by_id", .obj [("a", .str " 2024-01-02 "), ("", .str "x")])]

/-- Witness for claim C7 at a concrete input. -/
theorem loadState_tolerant_witness :
    loadState dpAll (.error ()) =
      { seenIds := [], igFailedIds := some [], initialized := false, telegramOffset := 0 } ∧
    (loadState dpAll (.ok loadDocW)).seenIds.length ≤ 500 ∧
    (dpAll "2024-01-01").isSome = true := by
  have h := loadState_tolerant dpAll
  refine ⟨h.1, (h.2 loadDocW).1, ?_⟩
  exact (h.2 loadDocW).2.2.1 "2024-01-01" rfl

/-! ## Claim C5: persisted collection caps -/

/-- A trivial `toISOString` model for concrete inputs. -/
def isoTriv : Int → String := fun _ => "1970-01-01T00:00:00.000Z"

/-- A config with both channels on and rotation off. -/
def cfgPlain : RunCfg :=
  { rotationEnabled := false, forceRotationPost := false, cooldownHours := 24,
    fbEnabled := true, igEnabled := true }

/-- Two distinct feed items sharing one id (a feed can repeat a `guid`). -/
def itemDupA : FeedItem := { id := "a", title := "t1", link := "https://x/1" }

/-- Second feed item with the same id. -/
def itemDupB : FeedItem := { id := "a", title := "t2", link := "https://x/2" }

/-- A posted-at map with 501 entries none of which parses as a date. -/
def postedBig : List (String × String) := (List.range 501).map (fun i => (toString i, "nodate"))

/-- A state carrying `postedBig`. -/
def stPostedBig : WatcherState :=
  { seenIds := [], igFailedIds := some [], initialized := true, telegramOffset := 0,
    posted_at_by_id := some postedBig }

/-- Counterexample to claim C5 as stated. First part: a cold-start check over a
feed whose two items share the id `"a"` saves a state whose persisted
`seenIds` list is `["a", "a"]` — the persisted id lists are not
duplicate-free. Second part: a state whose `posted_at_by_id` entries all fail
to parse is persisted with that raw 501-entry map unchanged — the 500-entry
cap on the persisted map is bypassed (`normalizedPostedAtById` is `undefined`,
so the `{...state}` spread keeps the original field). -/
theorem saveState_counterexample :
    (runCheck dpNone cfgPlain false defaultWatcherState [itemDupA, itemDupB] 0 ""
        (fun _ => true)).saved.map (fun s => (saveState dpNone isoTriv s).seenIds) =
      [["a", "a"]] ∧
    ¬ (["a", "a"] : List String).Nodup ∧
    (saveState dpNone isoTriv stPostedBig).posted_at_by_id = some postedBig ∧
    postedBig.length = 501 := by
  refine ⟨by decide, by decide, ?_, ?_⟩
  · have hentries : saveStatePostedEntries dpNone stPostedBig = [] := by
      unfold saveStatePostedEntries
      rw [List.filterMap_eq_nil_iff]
      intro p hp
      simp [dpNone]
    simp only [saveState, hentries, List.isEmpty_nil, if_true]
    rfl
  · simp [postedBig]

/-- Claim C5 as amended: in every persisted document the `seenIds` and
`igFailedIds` lists have at most 500 entries; whenever every stored
`posted_at_by_id` entry has a nonempty trimmed key and a nonempty trimmed
value with a parseable timestamp (which holds for every state the program
itself constructs), the persisted `posted_at_by_id` map also has at most 500
entries. The persisted id lists are truncated but not deduplicated. -/
theorem saveState_caps (dp : String → Option Int) (iso : Int → String) (st : WatcherState) :
    (saveState dp iso st).seenIds.length ≤ 500 ∧
    (saveState dp iso st).igFailedIds.length ≤ 500 ∧
    ((∀ p ∈ (match st.posted_at_by_id with | some m => m | none => []),
        jsTruthy (jsTrim p.1) = true ∧ jsTruthy (jsTrim p.2) = true ∧
          (dp (jsTrim p.2)).isSome = true) →
      ∀ m, (saveState dp iso st).posted_at_by_id = some m → m.length ≤ 500) := by
  refine ⟨?_, ?_, ?_⟩
  · have h : (saveState dp iso st).seenIds = st.seenIds.take MAX_SEEN_IDS := by
      simp only [saveState]
    rw [h, List.length_take]
    simp [MAX_SEEN_IDS]
  · have h : (saveState dp iso st).igFailedIds =
        (match st.igFailedIds with | some l => l | none => []).take MAX_SEEN_IDS := by
      simp only [saveState]
    rw [h, List.length_take]
    simp [MAX_SEEN_IDS]
  · intro hwf m hm
    by_cases hc : (saveStatePostedEntries dp st).isEmpty
    · have hdoc : (saveState dp iso st).posted_at_by_id = st.posted_at_by_id := by
        simp [saveState, hc]
      rw [hdoc] at hm
      rcases hraw : st.posted_at_by_id with _ | raw
      · rw [hraw] at hm
        cases hm
      · rw [hraw] at hm
        have hmr : raw = m := Option.some.inj hm
        rw [hraw] at hwf
        have hwf2 : ∀ p ∈ raw, jsTruthy (jsTrim p.1) = true ∧ jsTruthy (jsTrim p.2) = true ∧
            (dp (jsTrim p.2)).isSome = true := hwf
        have hrawnil : raw = [] := by
          cases hrawcase : raw with
          | nil => rfl
          | cons p t =>
            exfalso
            have hp : p ∈ raw := by rw [hrawcase]; exact List.mem_cons_self p t
            obtain ⟨hk, hv, hdp⟩ := hwf2 p hp
            obtain ⟨ms, hms⟩ := Option.isSome_iff_exists.mp hdp
            have hkept : (jsTrim p.1, jsTrim p.2) ∈
                ((raw.map (fun q => (jsTrim q.1, jsTrim q.2))).filter
                  (fun q => jsTruthy q.1 && jsTruthy q.2)) := by
              rw [List.mem_filter]
              exact ⟨List.mem_map.mpr ⟨p, hp, rfl⟩, by rw [hk, hv]; rfl⟩
            have hmem : (jsTrim p.1, jsTrim p.2, ms) ∈ saveStatePostedEntries dp st := by
              unfold saveStatePostedEntries
              rw [hraw]
              exact List.mem_filterMap.mpr ⟨(jsTrim p.1, jsTrim p.2), hkept, by rw [hms]; rfl⟩
            rw [List.isEmpty_iff] at hc
            rw [hc] at hmem
            cases hmem
        rw [← hmr, hrawnil]
        simp
    · have hdoc : (saveState dp iso st).posted_at_by_id =
          some (jsFromEntries
            (((sortDescBy (fun e => e.2.2) (saveStatePostedEntries dp st)).take
              MAX_SEEN_IDS).map (fun e => (e.1, iso e.2.2)))) := by
        simp [saveState, hc]
      rw [hdoc] at hm
      obtain rfl := Option.some.inj hm
      calc (jsFromEntries (((sortDescBy (fun e => e.2.2)
              (saveStatePostedEntries dp st)).take MAX_SEEN_IDS).map
              (fun e => (e.1, iso e.2.2)))).length
          ≤ (((sortDescBy (fun e => e.2.2) (saveStatePostedEntries dp st)).take
              MAX_SEEN_IDS).map (fun e => (e.1, iso e.2.2))).length :=
            jsFromEntries_length_le _
        _ ≤ 500 := by
            rw [List.length_map, List.length_take]
            simp [MAX_SEEN_IDS]

/-- Witness for claim C5 (amended) at a concrete input. -/
theorem saveState_caps_witness :
    (saveState dpAll isoTriv
        { seenIds := ["a"], igFailedIds := some [], initialized := true, telegramOffset := 0,
          posted_at_by_id := some [("a", "2024-01-01")] }).seenIds.length ≤ 500 ∧
    ∀ m, (saveState dpAll isoTriv
        { seenIds := ["a"], igFailedIds := some [], initialized := true, telegramOffset := 0,
          posted_at_by_id := some [("a", "2024-01-01")] }).posted_at_by_id = some m →
      m.length ≤ 500 := by
  have h := saveState_caps dpAll isoTriv
    { seenIds := ["a"], igFailedIds := some [], initialized := true, telegramOffset := 0,
      posted_at_by_id := some [("a", "2024-01-01")] }
  exact ⟨h.1, h.2.2 (by decide)⟩

/-! ## Claim C8: cold start -/

/-- 501 feed items with distinct ids. -/
def items501 : List FeedItem :=
  (List.range 501).map (fun i => { id := toString i, title := "t", link := "https://x" })

/-- Counterexample to claim C8 as stated. An empty feed is not initialized at
all (state untouched, nothing persisted), and a feed of 501 items marks only
500 ids as seen (the `MAX_SEEN_IDS` cap), not all `N = 501`. -/
theorem runCheck_cold_counterexample :
    (runCheck dpNone cfgPlain false defaultWatcherState [] 0 ""
        (fun _ => true)).state.initialized = false ∧
    (runCheck dpNone cfgPlain false defaultWatcherState [] 0 "" (fun _ => true)).saved = [] ∧
    (runCheck dpNone cfgPlain false defaultWatcherState items501 0 ""
        (fun _ => true)).state.seenIds.length = 500 ∧
    items501.length = 501 := by
  refine ⟨rfl, rfl, ?_, by simp [items501]⟩
  have hne : items501.isEmpty = false := by
    rw [List.isEmpty_eq_false_iff_exists_mem]
    refine ⟨{ id := toString 0, title := "t", link := "https://x" }, ?_⟩
    simp only [items501, List.mem_map]
    exact ⟨0, by simp, rfl⟩
  have hinit : defaultWatcherState.initialized = false := rfl
  simp only [runCheck, hne, hinit, Bool.false_eq_true, if_false, Bool.not_false, if_true]
  simp [items501, List.length_take, MAX_SEEN_IDS]

/-- Claim C8 as amended: the first-ever check over a nonempty feed of `N`
items marks the first `min(N, 500)` item ids as seen, sets `initialized`,
persists exactly that state, and publishes zero items to any channel; an
empty feed leaves the state untouched and uninitialized. -/
theorem runCheck_cold_start (dp : String → Option Int) (cfg : RunCfg) (fc : Bool)
    (st : WatcherState) (items : List FeedItem) (nowMs : Int) (nowIso : String)
    (igOk : FeedItem → Bool) (hinit : st.initialized = false) (hne : items ≠ []) :
    (runCheck dp cfg fc st items nowMs nowIso igOk).state.initialized = true ∧
    (runCheck dp cfg fc st items nowMs nowIso igOk).state.seenIds =
      (items.map (fun it => it.id)).take 500 ∧
    (runCheck dp cfg fc st items nowMs nowIso igOk).state.seenIds.length =
      min 500 items.length ∧
    (runCheck dp cfg fc st items nowMs nowIso igOk).saved =
      [(runCheck dp cfg fc st items nowMs nowIso igOk).state] ∧
    (runCheck dp cfg fc st items nowMs nowIso igOk).fbCalls = [] ∧
    (runCheck dp cfg fc st items nowMs nowIso igOk).igCalls = [] ∧
    (runCheck dp cfg fc st items nowMs nowIso igOk).selectorCalled = false := by
  have hie : items.isEmpty = false := by
    rw [List.isEmpty_eq_false_iff_exists_mem]
    cases items with
    | nil => exact absurd rfl hne
    | cons x xs => exact ⟨x, List.mem_cons_self x xs⟩
  simp only [runCheck, hie, hinit, Bool.false_eq_true, if_false, Bool.not_false, if_true]
  simp [MAX_SEEN_IDS, List.length_take]

/-- Witness for claim C8 (amended) at a concrete input. -/
theorem runCheck_cold_start_witness :
    (runCheck dpNone cfgPlain false defaultWatcherState [itemDupA] 0 ""
        (fun _ => true)).state.seenIds = ["a"] ∧
    (runCheck dpNone cfgPlain false defaultWatcherState [itemDupA] 0 ""
        (fun _ => true)).igCalls = [] := by
  have h := runCheck_cold_start dpNone cfgPlain false defaultWatcherState [itemDupA] 0 ""
    (fun _ => true) rfl (by decide)
  exact ⟨by rw [h.2.1]; decide, h.2.2.2.2.2.1⟩

/-! ## Claim C3: rotation gating -/

/-- A config with the rotation feature flag disabled but the forced-run flag
set (and one publish channel enabled). -/
def cfgForceOnly : RunCfg :=
  { rotationEnabled := false, forceRotationPost := true, cooldownHours := 24,
    fbEnabled := true, igEnabled := false }

/-- A state that has already seen the single feed item. -/
def stSeenA : WatcherState :=
  { seenIds := ["a"], igFailedIds := some [], initialized := true, telegramOffset := 0 }

/-- Counterexample to claim C3 as stated: with the rotation feature flag
disabled but `FORCE_ROTATION_POST` set (and not yet consumed), a check with no
new items still calls the rotation selector and republishes an item — the
forced-run flag alone bypasses the rotation feature flag (and the cooldown). -/
theorem rotation_gate_counterexample :
    cfgForceOnly.rotationEnabled = false ∧
    (runCheck dpNone cfgForceOnly false stSeenA [itemDupA] 0 "2024-01-01"
        (fun _ => true)).selectorCalled = true ∧
    (runCheck dpNone cfgForceOnly false stSeenA [itemDupA] 0 "2024-01-01"
        (fun _ => true)).fbCalls = ["a"] := by
  refine ⟨rfl, by decide, by decide⟩

/-- Claim C3 as amended: a check calls the rotation selector only when at
least one publish channel is enabled and either the forced-run flag is set
and not yet consumed — which alone suffices, overriding both the rotation
feature flag and the cooldown — or the rotation feature flag is enabled and
the cooldown has elapsed (or never rotated). In particular, with the rotation
flag disabled and no pending forced run, no rotation is attempted. -/
theorem runCheck_rotation_gate (dp : String → Option Int) (cfg : RunCfg) (fc : Bool)
    (st : WatcherState) (items : List FeedItem) (nowMs : Int) (nowIso : String)
    (igOk : FeedItem → Bool) :
    (runCheck dp cfg fc st items nowMs nowIso igOk).selectorCalled = true →
      (cfg.fbEnabled || cfg.igEnabled) = true ∧
      (forceThisRunOf cfg fc || (cfg.rotationEnabled &&
        rotationCooldownOk dp cfg st nowMs)) = true := by
  intro h
  simp only [runCheck] at h
  split at h
  · cases h
  · split at h
    · cases h
    · split at h
      · simp only [runCheckRotation] at h
        split at h
        · cases h
        · split at h
          · cases h
          · next hallowed hchannels =>
            constructor
            · revert hchannels
              cases cfg.fbEnabled <;> cases cfg.igEnabled <;> simp
            · revert hallowed
              cases hforce : forceThisRunOf cfg fc <;>
                cases hrot : (cfg.rotationEnabled &&
                  rotationCooldownOk dp cfg st nowMs) <;> simp
      · simp only [runCheckNewItems] at h
        cases h

/-- Witness for claim C3 (amended) at a concrete input where the selector is
called legitimately (rotation enabled, cooldown clear, channel on). -/
theorem runCheck_rotation_gate_witness :
    ({ rotationEnabled := true, forceRotationPost := false, cooldownHours := 24,
        fbEnabled := true, igEnabled := false } : RunCfg).fbEnabled = true ∧
    (forceThisRunOf
        { rotationEnabled := true, forceRotationPost := false, cooldownHours := 24,
          fbEnabled := true, igEnabled := false } false ||
      (({ rotationEnabled := true, forceRotationPost := false, cooldownHours := 24,
          fbEnabled := true, igEnabled := false } : RunCfg).rotationEnabled &&
        rotationCooldownOk dpNone
          { rotationEnabled := true, forceRotationPost := false, cooldownHours := 24,
            fbEnabled := true, igEnabled := false } stSeenA 0)) = true := by
  have h := runCheck_rotation_gate dpNone
    { rotationEnabled := true, forceRotationPost := false, cooldownHours := 24,
      fbEnabled := true, igEnabled := false } false stSeenA [itemDupA] 0 "2024-01-01"
    (fun _ => true) (by decide)
  exact ⟨by decide, h.2⟩

/-! ## Claim C1: transient-failure retry on Graph mutating calls -/

/-- An HTTP 500 response whose structured error body is flagged transient
(the shape asserted by the repository's own meta-instagram retry tests). -/
def respTransient500 : MetaGraphResponse :=
  { ok := false
    status := 500
    body := some (.obj [("error", .obj
      [("message", .str "An unexpected error has occurred."),
       ("code", .num 2),
       ("is_transient", .boolean true),
       ("fbtrace_id", .str "trace")])]) }

/-- A successful container-creation response. -/
def respCreationOk : MetaGraphResponse :=
  { ok := true, status := 200, body := some (.obj [("id", .str "creation123")]) }

/-- Response sequence: one transient 500 followed by successes. -/
def fetchRetryScenario : Nat → MetaGraphResponse :=
  fun k => if k = 0 then respTransient500 else respCreationOk

/-- Claim C1, evaluated at the failing input (one transient HTTP 500 followed
by a 200 on container creation). The code issues exactly one request and
raises a typed `MetaGraphRequestError` carrying the 500 status and the
transient flag: there is no retry wrapper around `createInstagramContainer`
(or any other mutating Graph call in the module), contradicting both the
retry claim and the module's own tests, which expect a second request and a
created container. -/
theorem createInstagramContainer_no_retry :
    publishInstagramPhoto fetchRetryScenario "ig123" "page-token"
        "https://example.com/image.jpg" true 2000 60000 (by decide) =
      (.error (.graph
        { status := 500
          error := some
            { message := some "An unexpected error has occurred."
              type := none
              code := some "2"
              subcode := none
              fbtraceId := some "trace"
              userTitle := none
              userMessage := none
              isTransient := some true } }), 1) ∧
    createInstagramContainer respCreationOk = .ok "creation123" := by
  exact ⟨rfl, rfl⟩

/-! ## Claim C2: the container poll loop -/

/-- A status that keeps the poll loop going (everything except `FINISHED`,
`ERROR`, `EXPIRED` — in particular `IN_PROGRESS`, `PUBLISHED`, `UNKNOWN`). -/
def pollContinues (s : InstagramContainerStatusCode) : Prop :=
  s ≠ .FINISHED ∧ s ≠ .ERROR ∧ s ≠ .EXPIRED

theorem pollContainerLoop_skip (fetchAt : Nat → MetaGraphResponse)
    (intervalMs timeoutMs : Nat) (hpos : 0 < intervalMs) (n : Nat) :
    ∀ i elapsed : Nat,
    (∀ k < n, pollContinues (fetchContainerStatus (fetchAt (i + k)))) →
    (∀ k < n, elapsed + k * intervalMs < timeoutMs) →
    pollContainerLoop fetchAt intervalMs timeoutMs hpos i elapsed =
      pollContainerLoop fetchAt intervalMs timeoutMs hpos (i + n)
        (elapsed + n * intervalMs) := by
  induction n with
  | zero =>
    intro i elapsed _ _
    simp
  | succ m ih =>
    intro i elapsed hcont htime
    have h0 : elapsed < timeoutMs := by
      have := htime 0 (by omega)
      simpa using this
    have hcont0 : pollContinues (fetchContainerStatus (fetchAt i)) := by
      have := hcont 0 (by omega)
      simpa using this
    obtain ⟨h1, h2, h3⟩ := hcont0
    rw [pollContainerLoop, if_pos h0]
    have hrec :
        (match fetchContainerStatus (fetchAt i) with
          | .FINISHED => ((.finished, i + 1) : PollOutcome × Nat)
          | .ERROR => (.failed .ERROR, i + 1)
          | .EXPIRED => (.failed .EXPIRED, i + 1)
          | _ => pollContainerLoop fetchAt intervalMs timeoutMs hpos (i + 1)
              (elapsed + intervalMs)) =
        pollContainerLoop fetchAt intervalMs timeoutMs hpos (i + 1)
          (elapsed + intervalMs) := by
      rcases hst : fetchContainerStatus (fetchAt i) with _ | _ | _ | _ | _ | _
      · exact absurd hst h3
      · exact absurd hst h2
      · exact absurd hst h1
      · rfl
      · rfl
      · rfl
    rw [hrec]
    have hstep := ih (i + 1) (elapsed + intervalMs)
      (fun k hk => by
        have := hcont (k + 1) (by omega)
        have he : i + (k + 1) = i + 1 + k := by omega
        rw [he] at this
        exact this)
      (fun k hk => by
        have := htime (k + 1) (by omega)
        have he : elapsed + (k + 1) * intervalMs = elapsed + intervalMs + k * intervalMs := by
          rw [Nat.succ_mul]
          omega
        rw [he] at this
        exact this)
    rw [hstep]
    have e1 : i + 1 + m = i + (m + 1) := by omega
    have e2 : elapsed + intervalMs + m * intervalMs = elapsed + (m + 1) * intervalMs := by
      rw [Nat.succ_mul]
      omega
    rw [e1, e2]

theorem pollContainerLoop_timeout (fetchAt : Nat → MetaGraphResponse)
    (intervalMs timeoutMs : Nat) (hpos : 0 < intervalMs) :
    ∀ d i elapsed : Nat, timeoutMs - elapsed ≤ d →
    (∀ k, elapsed + k * intervalMs < timeoutMs →
      pollContinues (fetchContainerStatus (fetchAt (i + k)))) →
    ∃ j, pollContainerLoop fetchAt intervalMs timeoutMs hpos i elapsed = (.timedOut, j) := by
  intro d
  induction d with
  | zero =>
    intro i elapsed hd _
    have hnot : ¬ elapsed < timeoutMs := by omega
    rw [pollContainerLoop, if_neg hnot]
    exact ⟨i, rfl⟩
  | succ m ih =>
    intro i elapsed hd hcont
    by_cases h0 : elapsed < timeoutMs
    · have hcont0 : pollContinues (fetchContainerStatus (fetchAt i)) := by
        have := hcont 0 (by simpa using h0)
        simpa using this
      obtain ⟨h1, h2, h3⟩ := hcont0
      rw [pollContainerLoop, if_pos h0]
      have hrec :
          (match fetchContainerStatus (fetchAt i) with
            | .FINISHED => ((.finished, i + 1) : PollOutcome × Nat)
            | .ERROR => (.failed .ERROR, i + 1)
            | .EXPIRED => (.failed .EXPIRED, i + 1)
            | _ => pollContainerLoop fetchAt intervalMs timeoutMs hpos (i + 1)
                (elapsed + intervalMs)) =
          pollContainerLoop fetchAt intervalMs timeoutMs hpos (i + 1)
            (elapsed + intervalMs) := by
        rcases hst : fetchContainerStatus (fetchAt i) with _ | _ | _ | _ | _ | _
        · exact absurd hst h3
        · exact absurd hst h2
        · exact absurd hst h1
        · rfl
        · rfl
        · rfl
      rw [hrec]
      exact ih (i + 1) (elapsed + intervalMs) (by omega)
        (fun k hk => by
          have he : elapsed + intervalMs + k * intervalMs =
              elapsed + (k + 1) * intervalMs := by
            rw [Nat.succ_mul]
            omega
          rw [he] at hk
          have := hcont (k + 1) hk
          have he2 : i + (k + 1) = i + 1 + k := by omega
          rw [he2] at this
          exact this)
    · rw [pollContainerLoop, if_neg h0]
      exact ⟨i, rfl⟩

/-- The control flow of `publishInstagramPhoto` after a successful container
creation, with polling enabled. -/
theorem publishInstagramPhoto_after_create (fetchAt : Nat → MetaGraphResponse)
    (igU tok img : String) (intervalMs timeoutMs : Nat) (hpos : 0 < intervalMs)
    (higU : jsTruthy (jsTrim igU) = true) (htok : jsTruthy (jsTrim tok) = true)
    (himg : jsTruthy (jsTrim img) = true)
    (cid : String) (hc : createInstagramContainer (fetchAt 0) = .ok cid) :
    publishInstagramPhoto fetchAt igU tok img true intervalMs timeoutMs hpos =
      (match (pollContainerLoop fetchAt intervalMs timeoutMs hpos 1 0).1 with
        | .failed s => (.error (.containerFailed s),
            (pollContainerLoop fetchAt intervalMs timeoutMs hpos 1 0).2)
        | _ => publishStep fetchAt (pollContainerLoop fetchAt intervalMs timeoutMs hpos 1 0).2
            (jsTrim igU) cid) := by
  simp only [publishInstagramPhoto, higU, htok, himg, hc, Bool.not_true, Bool.false_eq_true,
    if_false, if_true]

/-- Claim C2 as amended: with polling enabled, the container status is fetched
repeatedly at the configured interval; a `FINISHED` status stops polling and
the flow proceeds to publish; an `ERROR` or `EXPIRED` status fails the flow
with a container-failed error; `IN_PROGRESS` and unrecognized statuses
continue polling; but when the configured timeout elapses without reaching
`FINISHED`, the loop stops and the flow proceeds to attempt the container
publish anyway, rather than failing. -/
theorem publishInstagramPhoto_poll_protocol (fetchAt : Nat → MetaGraphResponse)
    (igU tok img : String) (intervalMs timeoutMs : Nat) (hpos : 0 < intervalMs)
    (higU : jsTruthy (jsTrim igU) = true) (htok : jsTruthy (jsTrim tok) = true)
    (himg : jsTruthy (jsTrim img) = true)
    (cid : String) (hc : createInstagramContainer (fetchAt 0) = .ok cid) :
    (∀ n, (∀ k < n, pollContinues (fetchContainerStatus (fetchAt (1 + k)))) →
      (∀ k, k ≤ n → k * intervalMs < timeoutMs) →
      fetchContainerStatus (fetchAt (1 + n)) = .FINISHED →
      publishInstagramPhoto fetchAt igU tok img true intervalMs timeoutMs hpos =
        publishStep fetchAt (n + 2) (jsTrim igU) cid) ∧
    (∀ n s, (∀ k < n, pollContinues (fetchContainerStatus (fetchAt (1 + k)))) →
      (∀ k, k ≤ n → k * intervalMs < timeoutMs) →
      fetchContainerStatus (fetchAt (1 + n)) = s → s = .ERROR ∨ s = .EXPIRED →
      publishInstagramPhoto fetchAt igU tok img true intervalMs timeoutMs hpos =
        (.error (.containerFailed s), n + 2)) ∧
    ((∀ k, k * intervalMs < timeoutMs →
        pollContinues (fetchContainerStatus (fetchAt (1 + k)))) →
      ∃ j, pollContainerLoop fetchAt intervalMs timeoutMs hpos 1 0 = (.timedOut, j) ∧
        publishInstagramPhoto fetchAt igU tok img true intervalMs timeoutMs hpos =
          publishStep fetchAt j (jsTrim igU) cid) := by
  have hmain := publishInstagramPhoto_after_create fetchAt igU tok img intervalMs timeoutMs
    hpos higU htok himg cid hc
  refine ⟨?_, ?_, ?_⟩
  · intro n hcont htime hfin
    have hskip := pollContainerLoop_skip fetchAt intervalMs timeoutMs hpos n 1 0
      (fun k hk => by
        have he : 1 + k = 1 + k := rfl
        exact hcont k hk)
      (fun k hk => by simpa using htime k (le_of_lt hk))
    have hend : pollContainerLoop fetchAt intervalMs timeoutMs hpos (1 + n)
        (0 + n * intervalMs) = (.finished, 1 + n + 1) := by
      have hlt : 0 + n * intervalMs < timeoutMs := by simpa using htime n (le_refl n)
      rw [pollContainerLoop, if_pos hlt, hfin]
    have hpoll : pollContainerLoop fetchAt intervalMs timeoutMs hpos 1 0 =
        (.finished, n + 2) := by
      rw [hskip, hend]
      congr 1
      omega
    rw [hmain, hpoll]
  · intro n s hcont htime hst hse
    have hskip := pollContainerLoop_skip fetchAt intervalMs timeoutMs hpos n 1 0
      (fun k hk => hcont k hk)
      (fun k hk => by simpa using htime k (le_of_lt hk))
    have hlt : 0 + n * intervalMs < timeoutMs := by simpa using htime n (le_refl n)
    have hend : pollContainerLoop fetchAt intervalMs timeoutMs hpos (1 + n)
        (0 + n * intervalMs) = (.failed s, 1 + n + 1) := by
      rw [pollContainerLoop, if_pos hlt, hst]
      rcases hse with rfl | rfl
      · rfl
      · rfl
    have hpoll : pollContainerLoop fetchAt intervalMs timeoutMs hpos 1 0 =
        (.failed s, n + 2) := by
      rw [hskip, hend]
      congr 1
      omega
    rw [hmain, hpoll]
  · intro hcont
    obtain ⟨j, hj⟩ := pollContainerLoop_timeout fetchAt intervalMs timeoutMs hpos
      timeoutMs 1 0 (by omega)
      (fun k hk => hcont k (by simpa using hk))
    refine ⟨j, hj, ?_⟩
    rw [hmain, hj]

/-- An in-progress container status response. -/
def respInProgress : MetaGraphResponse :=
  { ok := true, status := 200, body := some (.obj [("status_code", .str "IN_PROGRESS")]) }

/-- A successful container publish response. -/
def respMediaOk : MetaGraphResponse :=
  { ok := true, status := 200, body := some (.obj [("id", .str "media456")]) }

/-- Response sequence for the timeout scenario: creation succeeds, every
status poll reports `IN_PROGRESS`, and the publish request succeeds. -/
def fetchTimeoutScenario : Nat → MetaGraphResponse :=
  fun k => if k = 0 then respCreationOk else if k ≤ 2 then respInProgress else respMediaOk

/-- Counterexample to claim C2 as stated: with poll interval 1 ms and timeout
2 ms, every status poll reports `IN_PROGRESS`, so the timeout elapses without
ever reaching `FINISHED` — yet the flow publishes the container and returns a
successful result (4 requests: create, two polls, publish) instead of
failing. -/
theorem publishInstagramPhoto_timeout_publishes :
    fetchContainerStatus (fetchTimeoutScenario 1) = .IN_PROGRESS ∧
    fetchContainerStatus (fetchTimeoutScenario 2) = .IN_PROGRESS ∧
    publishInstagramPhoto fetchTimeoutScenario "ig123" "page-token"
        "https://example.com/image.jpg" true 1 2 (by decide) =
      (.ok { igUserId := "ig123", creationId := "creation123", mediaId := "media456" }, 4) := by
  refine ⟨rfl, rfl, ?_⟩
  have hpoll : pollContainerLoop fetchTimeoutScenario 1 2 (by decide) 1 0 = (.timedOut, 3) := by
    rw [pollContainerLoop, if_pos (by norm_num)]
    rw [show fetchContainerStatus (fetchTimeoutScenario 1) = .IN_PROGRESS from rfl]
    show pollContainerLoop fetchTimeoutScenario 1 2 (by decide) 2 1 = (.timedOut, 3)
    rw [pollContainerLoop, if_pos (by norm_num)]
    rw [show fetchContainerStatus (fetchTimeoutScenario 2) = .IN_PROGRESS from rfl]
    show pollContainerLoop fetchTimeoutScenario 1 2 (by decide) 3 2 = (.timedOut, 3)
    rw [pollContainerLoop, if_neg (by norm_num)]
  have hmain := publishInstagramPhoto_after_create fetchTimeoutScenario "ig123" "page-token"
    "https://example.com/image.jpg" 1 2 (by decide) (by decide) (by decide) (by decide)
    "creation123" rfl
  rw [hmain, hpoll]
  rfl

/-- A container status response reporting `ERROR`. -/
def respStatusError : MetaGraphResponse :=
  { ok := true, status := 200, body := some (.obj [("status_code", .str "ERROR")]) }

/-- Response sequence for the container-failure scenario. -/
def fetchErrorScenario : Nat → MetaGraphResponse :=
  fun k => if k = 0 then respCreationOk else respStatusError

/-- Witness for claim C2 (amended) at a concrete input: an `ERROR` status on
the first poll fails the flow with a container-failed error after 2 requests. -/
theorem publishInstagramPhoto_poll_protocol_witness :
    publishInstagramPhoto fetchErrorScenario "ig123" "page-token"
        "https://example.com/image.jpg" true 1 5 (by decide) =
      (.error (.containerFailed .ERROR), 2) := by
  have h := (publishInstagramPhoto_poll_protocol fetchErrorScenario "ig123" "page-token"
    "https://example.com/image.jpg" 1 5 (by decide) (by decide) (by decide) (by decide)
    "creation123" rfl).2.1 0 .ERROR
    (fun k hk => absurd hk (by omega))
    (fun k hk => by omega)
    rfl (Or.inl rfl)
  simpa using h

/-! ## Claim C4: the rotation selector decision procedure -/

/-- A state whose posted-at map holds an empty-string timestamp for id `a`
(the entry exists, but is falsy to the JS truthiness test the code uses). -/
def stEmptyVal : WatcherState :=
  { seenIds := [], igFailedIds := some [], initialized := true, telegramOffset := 0,
    posted_at_by_id := some [("a", "")] }

/-- Counterexample to claim C4 as stated: the candidate `a` has an entry in
`postedAtById` (the empty string), so by the claim rule 1 must not apply and,
with no parseable timestamp and `allowRecent = false`, no item may be
selected — but the code tests JS truthiness (`!postedAtById[item.id]`), treats
the empty-string entry as never posted, and selects the item with reason
`never_posted`. -/
theorem selectRotationItem_counterexample :
    lookupPosted [("a", "")] "a" = some "" ∧
    selectRotationItem dpNone
        { items := [itemDupA], state := stEmptyVal, nowMs := 0, allowRecent := false } =
      { item := some itemDupA, reason := .never_posted } := by
  exact ⟨rfl, by decide⟩

/-- Claim C4 as amended: the candidate set is the feed items excluding the
item whose id equals the trimmed `lastPostedId` and any item lacking a link or
id; if some candidate has no entry — or an empty-string entry — in
`postedAtById`, the earliest such candidate in feed order is selected with
reason `never_posted`; otherwise, among candidates whose posted timestamp
parses and is at least 30 days old, one with the oldest posted timestamp is
selected with reason `stale_30d`; otherwise, only if `allowRecent` is true and
some candidate has a parseable posted timestamp, a candidate with the oldest
posted timestamp is selected with reason `least_recent`; otherwise no item is
selected (`no_eligible`, or `no_candidates` when the candidate set is empty). -/
theorem selectRotationItem_characterized (dp : String → Option Int) (p : RotationParams) :
    (rotationCandidates p.items (lastPostedIdOf p.state) = [] →
      selectRotationItem dp p = { item := none, reason := .no_candidates }) ∧
    (∀ it t, rotationNeverPosted (rotationCandidates p.items (lastPostedIdOf p.state))
        (postedMapOf p.state) = it :: t →
      selectRotationItem dp p = { item := some it, reason := .never_posted }) ∧
    (rotationCandidates p.items (lastPostedIdOf p.state) ≠ [] →
      rotationNeverPosted (rotationCandidates p.items (lastPostedIdOf p.state))
        (postedMapOf p.state) = [] →
      rotationStale p.nowMs (rotationPosted dp
        (rotationCandidates p.items (lastPostedIdOf p.state)) (postedMapOf p.state)) ≠ [] →
      ∃ e ∈ rotationStale p.nowMs (rotationPosted dp
          (rotationCandidates p.items (lastPostedIdOf p.state)) (postedMapOf p.state)),
        selectRotationItem dp p = { item := some e.1, reason := .stale_30d } ∧
        p.nowMs - e.2 ≥ THIRTY_DAYS_MS ∧
        ∀ e2 ∈ rotationStale p.nowMs (rotationPosted dp
            (rotationCandidates p.items (lastPostedIdOf p.state)) (postedMapOf p.state)),
          e.2 ≤ e2.2) ∧
    (rotationCandidates p.items (lastPostedIdOf p.state) ≠ [] →
      rotationNeverPosted (rotationCandidates p.items (lastPostedIdOf p.state))
        (postedMapOf p.state) = [] →
      rotationStale p.nowMs (rotationPosted dp
        (rotationCandidates p.items (lastPostedIdOf p.state)) (postedMapOf p.state)) = [] →
      p.allowRecent = true →
      rotationPosted dp (rotationCandidates p.items (lastPostedIdOf p.state))
        (postedMapOf p.state) ≠ [] →
      ∃ e ∈ rotationPosted dp (rotationCandidates p.items (lastPostedIdOf p.state))
          (postedMapOf p.state),
        selectRotationItem dp p = { item := some e.1, reason := .least_recent } ∧
        ∀ e2 ∈ rotationPosted dp (rotationCandidates p.items (lastPostedIdOf p.state))
            (postedMapOf p.state),
          e.2 ≤ e2.2) ∧
    (rotationCandidates p.items (lastPostedIdOf p.state) ≠ [] →
      rotationNeverPosted (rotationCandidates p.items (lastPostedIdOf p.state))
        (postedMapOf p.state) = [] →
      rotationStale p.nowMs (rotationPosted dp
        (rotationCandidates p.items (lastPostedIdOf p.state)) (postedMapOf p.state)) = [] →
      (p.allowRecent = false ∨
        rotationPosted dp (rotationCandidates p.items (lastPostedIdOf p.state))
          (postedMapOf p.state) = []) →
      selectRotationItem dp p = { item := none, reason := .no_eligible }) := by
  refine ⟨?_, ?_, ?_, ?_, ?_⟩
  · intro hC
    simp [selectRotationItem, hC]
  · intro it t hN
    have hCne : (rotationCandidates p.items (lastPostedIdOf p.state)).isEmpty = false := by
      rcases hc : rotationCandidates p.items (lastPostedIdOf p.state) with _ | _
      · rw [hc] at hN
        cases hN
      · rfl
    simp only [selectRotationItem, hCne, Bool.false_eq_true, if_false, hN]
  · intro hC hN hS
    have hCne : (rotationCandidates p.items (lastPostedIdOf p.state)).isEmpty = false := by
      rcases hc : rotationCandidates p.items (lastPostedIdOf p.state) with _ | _
      · exact absurd hc hC
      · rfl
    rcases hsort : sortAscBy (fun e => e.2) (rotationStale p.nowMs (rotationPosted dp
        (rotationCandidates p.items (lastPostedIdOf p.state)) (postedMapOf p.state)))
      with _ | ⟨e, rest⟩
    · exact absurd (sortAscBy_eq_nil _ _ hsort) hS
    · have hmem := sortAscBy_head_mem _ _ _ _ hsort
      have hmin := sortAscBy_head_min _ _ _ _ hsort
      refine ⟨e, hmem, ?_, ?_, fun e2 he2 => hmin e2 he2⟩
      · simp only [selectRotationItem, hCne, Bool.false_eq_true, if_false, hN, hsort]
      · have := List.mem_filter.mp hmem
        have hdec := this.2
        simpa using hdec
  · intro hC hN hS hAllow hP
    have hCne : (rotationCandidates p.items (lastPostedIdOf p.state)).isEmpty = false := by
      rcases hc : rotationCandidates p.items (lastPostedIdOf p.state) with _ | _
      · exact absurd hc hC
      · rfl
    have hPne : (rotationPosted dp (rotationCandidates p.items (lastPostedIdOf p.state))
        (postedMapOf p.state)).isEmpty = false := by
      rcases hc : rotationPosted dp (rotationCandidates p.items (lastPostedIdOf p.state))
          (postedMapOf p.state) with _ | _
      · exact absurd hc hP
      · rfl
    have hsortS : sortAscBy (fun e => e.2) (rotationStale p.nowMs (rotationPosted dp
        (rotationCandidates p.items (lastPostedIdOf p.state)) (postedMapOf p.state))) = [] := by
      rw [hS]
      rfl
    rcases hsort : sortAscBy (fun e => e.2) (rotationPosted dp
        (rotationCandidates p.items (lastPostedIdOf p.state)) (postedMapOf p.state))
      with _ | ⟨e, rest⟩
    · exact absurd (sortAscBy_eq_nil _ _ hsort) hP
    · have hmem := sortAscBy_head_mem _ _ _ _ hsort
      have hmin := sortAscBy_head_min _ _ _ _ hsort
      refine ⟨e, hmem, ?_, fun e2 he2 => hmin e2 he2⟩
      simp only [selectRotationItem, hCne, Bool.false_eq_true, if_false, hN, hsortS, hAllow,
        hPne, Bool.not_false, Bool.and_self, if_true, hsort]
  · intro hC hN hS hcase
    have hCne : (rotationCandidates p.items (lastPostedIdOf p.state)).isEmpty = false := by
      rcases hc : rotationCandidates p.items (lastPostedIdOf p.state) with _ | _
      · exact absurd hc hC
      · rfl
    have hsortS : sortAscBy (fun e => e.2) (rotationStale p.nowMs (rotationPosted dp
        (rotationCandidates p.items (lastPostedIdOf p.state)) (postedMapOf p.state))) = [] := by
      rw [hS]
      rfl
    rcases hcase with hAllow | hP
    · simp only [selectRotationItem, hCne, Bool.false_eq_true, if_false, hN, hsortS, hAllow,
        Bool.false_and, if_false]
    · have hPe : (rotationPosted dp (rotationCandidates p.items (lastPostedIdOf p.state))
          (postedMapOf p.state)).isEmpty = true := by
        rw [hP]
        rfl
      simp only [selectRotationItem, hCne, Bool.false_eq_true, if_false, hN, hsortS, hPe,
        Bool.not_true, Bool.and_false, if_false]

/-- A `Date.parse` model that parses exactly the string `old` (to epoch 0). -/
def dpStale : String → Option Int := fun s => if s == "old" then some 0 else none

/-- A feed item posted long ago. -/
def itemB : FeedItem := { id := "b", title := "t", link := "https://x/b" }

/-- A state that posted `itemB` at the parseable timestamp `old`. -/
def stStale : WatcherState :=
  { seenIds := [], igFailedIds := some [], initialized := true, telegramOffset := 0,
    posted_at_by_id := some [("b", "old")] }

/-- Witness for claim C4 (amended) at a concrete input: a candidate posted
exactly 30 days ago is selected with reason `stale_30d`. -/
theorem selectRotationItem_characterized_witness :
    selectRotationItem dpStale
        { items := [itemB], state := stStale, nowMs := THIRTY_DAYS_MS, allowRecent := false } =
      { item := some itemB, reason := .stale_30d } := by
  obtain ⟨e, heS, hr, _, _⟩ := (selectRotationItem_characterized dpStale
      { items := [itemB], state := stStale, nowMs := THIRTY_DAYS_MS,
        allowRecent := false }).2.2.1
    (by decide) (by decide) (by decide)
  have hS : rotationStale THIRTY_DAYS_MS (rotationPosted dpStale
      (rotationCandidates [itemB] (lastPostedIdOf stStale)) (postedMapOf stStale)) =
      [(itemB, 0)] := by decide
  rw [hS] at heS
  rw [List.mem_singleton] at heS
  rw [heS] at hr
  exact hr

end Moltbot
